import Mathlib

/-!
Shallow embedding of the reservation/ticket subsystem of the theatre booking
backend (files `theatre/models.py`, `theatre/serializers.py`,
`theatre/views.py`, `theatre/permissions.py`).

Conventions of the embedding:
* database rows become Lean structures; the database is a `DBState` of lists;
* timestamps are `Int` (a point on a discrete time line); `now` is the single
  instant at which a request is validated and committed (the source samples
  `timezone.now()` once per ticket item inside one request; the claims under
  study do not depend on intra-request clock drift);
* fallible code returns `Except`/an outcome sum; a Django/DRF
  `ValidationError` becomes an error value carrying the field key and message;
* `transaction.atomic` in `ReservationSerializer.create` means a failed
  commit leaves the caller-visible state unchanged: `reservationCreate`
  returns either a whole new state or an error, and `stateAfter` maps a
  rejected outcome back to the unchanged input state.
-/

deriving instance DecidableEq for Except

namespace Theatre

/-- `TheatreHall` model (models.py): name is irrelevant to the claims,
`rows` and `seats_in_row` are `PositiveIntegerField`s (ℕ). -/
structure TheatreHall where
  rows : Nat
  seats_in_row : Nat
deriving DecidableEq, Repr

/-- `TheatreHall.hall_capacity` property (models.py): `rows * seats_in_row`. -/
def TheatreHall.hall_capacity (h : TheatreHall) : Nat :=
  h.rows * h.seats_in_row

/-- `Performance` model (models.py): a play shown in a hall at `show_time`.
The play reference is irrelevant to the claims; the hall is embedded in place
of the `theatre_hall` foreign key (`select_related("theatre_hall")`). -/
structure Performance where
  id : Nat
  theatre_hall : TheatreHall
  show_time : Int
deriving DecidableEq, Repr

/-- `Reservation` model (models.py): owner (`user`) and `created_at`
(`auto_now_add`, hence the commit instant). -/
structure Reservation where
  id : Nat
  user : Nat
  created_at : Int
deriving DecidableEq, Repr

/-- `Ticket` model (models.py): `row`, `seat`, and the two foreign keys,
held as row ids. -/
structure Ticket where
  row : Nat
  seat : Nat
  performance : Nat
  reservation : Nat
deriving DecidableEq, Repr

/-- The column triple protected by the unique constraint
`uniq_row_and_seat_for_performance` (models.py, `Ticket.Meta`). -/
def Ticket.triple (t : Ticket) : Nat × Nat × Nat :=
  (t.row, t.seat, t.performance)

/-- The relational store as seen by the reservation subsystem. -/
structure DBState where
  performances : List Performance
  reservations : List Reservation
  tickets : List Ticket
  next_reservation_id : Nat
deriving DecidableEq, Repr

/-- The unique constraint `uniq_row_and_seat_for_performance` as a state
invariant: no two ticket rows share a (row, seat, performance) triple. -/
def uniqueTriples (db : DBState) : Prop :=
  (db.tickets.map Ticket.triple).Nodup

instance (db : DBState) : Decidable (uniqueTriples db) := by
  unfold uniqueTriples; infer_instance

/-- One element of the `tickets` array submitted to
`ReservationSerializer` (serializers.py): raw `row`, `seat` and the primary
key sent for the `performance` related field. -/
structure TicketItem where
  row : Nat
  seat : Nat
  performance : Nat
deriving DecidableEq, Repr

/-- A ticket item after `TicketSerializer` validation: the performance pk has
been resolved to the `Performance` instance. -/
structure ValidTicket where
  row : Nat
  seat : Nat
  performance : Performance
deriving DecidableEq, Repr

/-- A field-keyed DRF/Django `ValidationError`, e.g.
`{"performance": "Performance is in the past."}`. -/
structure FieldError where
  field : String
  message : String
deriving DecidableEq, Repr

/-- The 400 bodies `ReservationViewSet` create can produce:
`emptyTickets` from `allow_empty=False` on the nested list,
`invalidItems` from per-item validation (DRF collects one error record per
failing item, keyed by its position), and `seatTaken` from the caught
`IntegrityError` (serializers.py, `ReservationSerializer.create`). -/
inductive CreateError where
  | emptyTickets
  | invalidItems (errs : List (Nat × FieldError))
  | seatTaken
deriving DecidableEq, Repr

/-- The single collective message attached to the `detail` key on a seat
collision (serializers.py line 213). -/
def CreateError.detail : CreateError → Option String
  | .seatTaken => some "Some seat is already taken for this performance."
  | _ => none

/-- Observable outcome of one reservation-create request: either a new
committed state together with the id of the created reservation, or a
rejection (every `CreateError` is a DRF `ValidationError`, an HTTP 400). -/
inductive CreateOutcome where
  | created (db : DBState) (rid : Nat)
  | rejected (err : CreateError)
deriving DecidableEq, Repr

/-- HTTP status of the create outcome: 201 on success; all rejections are
DRF `ValidationError`s, rendered as 400 (DRF never maps them to 404). -/
def CreateOutcome.status : CreateOutcome → Nat
  | .created _ _ => 201
  | .rejected _ => 400

/-- The state visible to readers after the request: `transaction.atomic`
guarantees a rejected request leaves the store untouched. -/
def stateAfter (db : DBState) : CreateOutcome → DBState
  | .created dbNew _ => dbNew
  | .rejected _ => db

/-- Primary-key lookup behind the `performance` related field
(`Performance.objects.select_related("theatre_hall")`, serializers.py
lines 154-157). -/
def lookupPerformance (db : DBState) (pk : Nat) : Option Performance :=
  db.performances.find? (fun p => p.id == pk)

/-- `PrimaryKeyRelatedField.to_internal_value` semantics: an id that does
not resolve raises a field-keyed `ValidationError`
(`does_not_exist`, HTTP 400 — DRF does not raise `NotFound` here). -/
def resolvePerformance (db : DBState) (pk : Nat) : Except FieldError Performance :=
  match lookupPerformance db pk with
  | some p => .ok p
  | none => .error ⟨"performance", "Invalid pk - object does not exist."⟩

/-- `Ticket.validate_ticket` (models.py lines 123-136): checks
`1 <= row <= hall.rows` then `1 <= seat <= hall.seats_in_row`, raising a
field-keyed error for the first violated field. -/
def validate_ticket (row seat : Nat) (hall : TheatreHall) : Except FieldError Unit :=
  if ¬ (1 ≤ row ∧ row ≤ hall.rows) then
    .error ⟨"row", "Row number must be between 1 and " ++ toString hall.rows⟩
  else if ¬ (1 ≤ seat ∧ seat ≤ hall.seats_in_row) then
    .error ⟨"seat", "Seat number must be between 1 and " ++ toString hall.seats_in_row⟩
  else
    .ok ()

/-- `TicketSerializer` run on one item: resolve the `performance` pk, then
`validate` (serializers.py lines 169-181): the temporal check
`performance.show_time < timezone.now()` comes first, then
`Ticket.validate_ticket` against the performance's hall. -/
def ticketValidate (db : DBState) (now : Int) (item : TicketItem) :
    Except FieldError ValidTicket :=
  match resolvePerformance db item.performance with
  | .error e => .error e
  | .ok p =>
    if p.show_time < now then
      .error ⟨"performance", "Performance is in the past."⟩
    else
      match validate_ticket item.row item.seat p.theatre_hall with
      | .error e => .error e
      | .ok _ => .ok ⟨item.row, item.seat, p⟩

/-- DRF `ListSerializer` validation of the nested `tickets` array: each item
is validated independently; errors are collected per position, successes in
order. `i` is the position of the head of the remaining list. -/
def collectValidate (db : DBState) (now : Int) :
    Nat → List TicketItem → List (Nat × FieldError) × List ValidTicket
  | _, [] => ([], [])
  | i, item :: rest =>
    match ticketValidate db now item with
    | .error e =>
      ((i, e) :: (collectValidate db now (i + 1) rest).1,
        (collectValidate db now (i + 1) rest).2)
    | .ok v =>
      ((collectValidate db now (i + 1) rest).1,
        v :: (collectValidate db now (i + 1) rest).2)

/-- `ReservationSerializer.is_valid`: `allow_empty=False` rejects an empty
`tickets` list; otherwise the request is valid iff every item is. -/
def validateItems (db : DBState) (now : Int) (items : List TicketItem) :
    Except CreateError (List ValidTicket) :=
  if items.isEmpty then .error .emptyTickets
  else
    match collectValidate db now 0 items with
    | ([], oks) => .ok oks
    | (errs, _) => .error (.invalidItems errs)

/-- Does the list of rows already contain a ticket with this constraint
triple? -/
def hasTriple (ts : List Ticket) (tr : Nat × Nat × Nat) : Bool :=
  ts.any (fun t => t.triple == tr)

/-- `Ticket.objects.bulk_create` under the unique constraint
`uniq_row_and_seat_for_performance`: rows are inserted in order and the
statement raises `IntegrityError` iff some new row duplicates the triple of
an already-present row (pre-existing or earlier in the same batch). -/
def bulkInsertConflict : List Ticket → List Ticket → Bool
  | _, [] => false
  | existing, t :: rest =>
    hasTriple existing t.triple || bulkInsertConflict (t :: existing) rest

/-- A validated item turned into the `Ticket` row inserted by
`ReservationSerializer.create` (`Ticket(reservation=reservation, **item)`). -/
def mkTicket (rid : Nat) (v : ValidTicket) : Ticket :=
  ⟨v.row, v.seat, v.performance.id, rid⟩

/-- `ReservationViewSet` create: `serializer.is_valid(raise_exception=True)`
then `ReservationSerializer.create` (serializers.py lines 200-216):
inside `transaction.atomic()` a `Reservation` row for the calling user is
inserted, then all tickets in one `bulk_create`; an `IntegrityError` from
the unique constraint rolls the whole transaction back and is translated to
the collective `seatTaken` error. -/
def reservationCreate (db : DBState) (user : Nat) (now : Int)
    (items : List TicketItem) : CreateOutcome :=
  match validateItems db now items with
  | .error e => .rejected e
  | .ok valid =>
    if bulkInsertConflict db.tickets
        (valid.map (mkTicket db.next_reservation_id)) then
      .rejected .seatTaken
    else
      .created
        { db with
          reservations :=
            db.reservations ++ [⟨db.next_reservation_id, user, now⟩],
          tickets :=
            db.tickets ++ valid.map (mkTicket db.next_reservation_id),
          next_reservation_id := db.next_reservation_id + 1 }
        db.next_reservation_id

/-- Ticket rows of one performance (the reverse relation `tickets` counted
by the annotation in `PerformanceViewSet.get_queryset`). -/
def ticketsFor (db : DBState) (pid : Nat) : List Ticket :=
  db.tickets.filter (fun t => t.performance == pid)

/-- `Count("tickets")`: the live number of booked tickets of a performance. -/
def takenCount (db : DBState) (pid : Nat) : Nat :=
  (ticketsFor db pid).length

/-- The `tickets_available` annotation of `PerformanceViewSet.get_queryset`
(views.py lines 93-103): `F("theatre_hall__rows") *
F("theatre_hall__seats_in_row") - Count("tickets")`, evaluated by the
database in signed integer arithmetic on every query. -/
def tickets_available (db : DBState) (p : Performance) : Int :=
  (p.theatre_hall.rows * p.theatre_hall.seats_in_row : Int) - takenCount db p.id

/-- One row of the performance listing as serialized by
`PerformanceListSerializer`: id, show time, the denormalized hall capacity
and the annotated `tickets_available`. -/
structure PerformanceListEntry where
  id : Nat
  show_time : Int
  hall_capacity : Nat
  tickets_available : Int
deriving DecidableEq, Repr

/-- The annotation applied to one performance row. -/
def annotatePerformance (db : DBState) (p : Performance) : PerformanceListEntry :=
  ⟨p.id, p.show_time, p.theatre_hall.hall_capacity, tickets_available db p⟩

/-- `PerformanceViewSet.get_queryset`: every performance row annotated with
the live availability, ordered by `show_time`. There is no stored counter
column anywhere in `DBState`: the value is recomputed from `db.tickets` on
each call. -/
def performanceQueryset (db : DBState) : List PerformanceListEntry :=
  (db.performances.map (annotatePerformance db)).mergeSort
    (fun a b => decide (a.show_time ≤ b.show_time))

/-- A user row as the permission checks see it (`is_staff` marks admins). -/
structure UserRec where
  id : Nat
  is_staff : Bool
deriving DecidableEq, Repr

/-- An HTTP request as the permission layer sees it: the method and the
authenticated user (`none` = anonymous). -/
structure Request where
  method : String
  user : Option UserRec
deriving DecidableEq, Repr

/-- `rest_framework.permissions.SAFE_METHODS`. -/
def SAFE_METHODS : List String :=
  ["GET", "HEAD", "OPTIONS"]

/-- `IsAdminOrReadOnly.has_permission` (permissions.py lines 14-17):
safe methods for anyone, otherwise `bool(request.user and
request.user.is_staff)`. -/
def isAdminOrReadOnly (req : Request) : Bool :=
  if req.method ∈ SAFE_METHODS then true
  else
    match req.user with
    | some u => u.is_staff
    | none => false

/-- DRF `IsAdminUser.has_permission`, the explicit permission on the
`upload_image` action (views.py line 80): admins only, for every method. -/
def isAdminUser (req : Request) : Bool :=
  match req.user with
  | some u => u.is_staff
  | none => false

/-- Modelled from the spec: the project settings module (not under `src/`)
installs `IsAdminOrReadOnly` as the permission on the catalog and scheduling
viewsets (Actor, Genre, TheatreHall, Play, Performance) — "read operations
(list/retrieve) permitted for any caller, including unauthenticated; write
operations ... require an authenticated caller with administrative
privilege. Non-admin write attempts fail with a forbidden/authorization
error, not a not-found error." The repository's own view tests exercise
exactly this behaviour. A denied permission renders as HTTP 403, a granted
request reaches the handler (200 family). -/
def catalogStatus (req : Request) : Nat :=
  if isAdminOrReadOnly req then 200 else 403

/-- The `upload_image` action with its explicit `IsAdminUser` permission:
denied requests render as HTTP 403. -/
def uploadImageStatus (req : Request) : Nat :=
  if isAdminUser req then 200 else 403

/-- `ReservationViewSet.get_queryset` (views.py lines 122-130):
`Reservation.objects.filter(user=self.request.user)` ordered by
`-created_at`. The filter argument is the server-side authenticated
identity; the view declares no `filterset_class`, so the client's query
parameters are never applied to this queryset. -/
def reservationQueryset (db : DBState) (userId : Nat)
    (queryParams : List (String × String)) : List Reservation :=
  (db.reservations.filter (fun r => r.user == userId)).mergeSort
    (fun a b => decide (b.created_at ≤ a.created_at))

/-! ### Helper lemmas -/

theorem hasTriple_eq_false_iff (ts : List Ticket) (tr : Nat × Nat × Nat) :
    hasTriple ts tr = false ↔ tr ∉ ts.map Ticket.triple := by
  rw [← Bool.not_eq_true]
  simp only [hasTriple, List.any_eq_true, List.mem_map, beq_iff_eq]

theorem bulkInsertConflict_eq_false_iff (news : List Ticket) :
    ∀ existing : List Ticket,
      bulkInsertConflict existing news = false ↔
        ((news.map Ticket.triple).Nodup ∧
          ∀ t ∈ news, t.triple ∉ existing.map Ticket.triple) := by
  induction news with
  | nil => intro existing; simp [bulkInsertConflict]
  | cons t rest ih =>
    intro existing
    show (hasTriple existing t.triple ||
        bulkInsertConflict (t :: existing) rest) = false ↔ _
    rw [Bool.or_eq_false_iff, ih (t :: existing), hasTriple_eq_false_iff]
    constructor
    · rintro ⟨hA, hN, hrest⟩
      constructor
      · rw [List.map_cons, List.nodup_cons]
        refine ⟨?_, hN⟩
        intro hmem
        obtain ⟨u, hu, hequ⟩ := List.mem_map.mp hmem
        have h2 := hrest u hu
        rw [List.map_cons] at h2
        exact h2 (by rw [hequ]; exact List.mem_cons_self _ _)
      · intro u hu
        rcases List.mem_cons.mp hu with hEq | hu2
        · rw [hEq]; exact hA
        · intro hmem
          have h2 := hrest u hu2
          rw [List.map_cons] at h2
          exact h2 (List.mem_cons_of_mem _ hmem)
    · rintro ⟨hnodup, hall⟩
      rw [List.map_cons, List.nodup_cons] at hnodup
      obtain ⟨hhead, hN⟩ := hnodup
      refine ⟨hall t (List.mem_cons_self _ _), hN, ?_⟩
      intro u hu
      rw [List.map_cons]
      intro hmem
      rcases List.mem_cons.mp hmem with hEq | hmem2
      · exact hhead (hEq ▸ List.mem_map_of_mem Ticket.triple hu)
      · exact hall u (List.mem_cons_of_mem _ hu) hmem2

theorem collectValidate_fst_eq_nil_iff (db : DBState) (now : Int)
    (items : List TicketItem) :
    ∀ i : Nat, (collectValidate db now i items).1 = [] ↔
      ∀ it ∈ items, ∃ v, ticketValidate db now it = .ok v := by
  induction items with
  | nil => intro i; simp [collectValidate]
  | cons item rest ih =>
    intro i
    simp only [collectValidate]
    cases hv : ticketValidate db now item with
    | error e => simp [hv, ih]
    | ok v =>
      simp only [List.mem_cons]
      rw [ih (i + 1)]
      constructor
      · intro h it hmem
        rcases hmem with hmem | hmem
        · exact ⟨v, hmem ▸ hv⟩
        · exact h it hmem
      · intro h it hmem
        exact h it (Or.inr hmem)

theorem collectValidate_snd_eq (db : DBState) (now : Int)
    (items : List TicketItem) :
    ∀ i : Nat, (collectValidate db now i items).2 =
      items.filterMap (fun it => (ticketValidate db now it).toOption) := by
  induction items with
  | nil => intro i; simp [collectValidate]
  | cons item rest ih =>
    intro i
    simp only [collectValidate, List.filterMap_cons]
    cases hv : ticketValidate db now item with
    | error e => simp [hv, Except.toOption, ih]
    | ok v => simp [hv, Except.toOption, ih]

theorem collectValidate_mem_of_error (db : DBState) (now : Int)
    (items : List TicketItem) :
    ∀ (i j : Nat) (item : TicketItem) (e : FieldError),
      items.get? j = some item →
      ticketValidate db now item = .error e →
      (i + j, e) ∈ (collectValidate db now i items).1 := by
  induction items with
  | nil => intro i j item e hget; simp at hget
  | cons head rest ih =>
    intro i j item e hget herr
    cases j with
    | zero =>
      simp only [List.get?] at hget
      injection hget with hget
      subst hget
      simp [collectValidate, herr]
    | succ j =>
      simp only [List.get?] at hget
      have hmem := ih (i + 1) j item e hget herr
      have harith : i + 1 + j = i + (j + 1) := by omega
      rw [harith] at hmem
      cases hv : ticketValidate db now head with
      | error e2 =>
        simp only [collectValidate, hv]
        exact List.mem_cons_of_mem _ hmem
      | ok v =>
        simp only [collectValidate, hv]
        exact hmem

theorem ticketValidate_ok_iff (db : DBState) (now : Int) (item : TicketItem)
    (p : Performance)
    (hres : lookupPerformance db item.performance = some p)
    (hfut : ¬ p.show_time < now) :
    ∀ v, ticketValidate db now item = .ok v ↔
      (v = ⟨item.row, item.seat, p⟩ ∧
        (1 ≤ item.row ∧ item.row ≤ p.theatre_hall.rows) ∧
        (1 ≤ item.seat ∧ item.seat ≤ p.theatre_hall.seats_in_row)) := by
  intro v
  simp only [ticketValidate, resolvePerformance, hres, if_neg hfut,
    validate_ticket]
  by_cases hrow : 1 ≤ item.row ∧ item.row ≤ p.theatre_hall.rows
  · by_cases hseat : 1 ≤ item.seat ∧ item.seat ≤ p.theatre_hall.seats_in_row
    · simp [hrow, hseat, eq_comm]
    · simp [hrow, hseat]
  · simp [hrow]

theorem ticketValidate_ok_spec (db : DBState) (now : Int) (item : TicketItem)
    (v : ValidTicket) (hok : ticketValidate db now item = .ok v) :
    v.row = item.row ∧ v.seat = item.seat ∧
      lookupPerformance db item.performance = some v.performance ∧
      v.performance.id = item.performance ∧
      ¬ v.performance.show_time < now ∧
      (1 ≤ item.row ∧ item.row ≤ v.performance.theatre_hall.rows) ∧
      (1 ≤ item.seat ∧ item.seat ≤ v.performance.theatre_hall.seats_in_row) := by
  unfold ticketValidate resolvePerformance at hok
  cases hres : lookupPerformance db item.performance with
  | none => rw [hres] at hok; simp at hok
  | some p =>
    rw [hres] at hok
    simp only at hok
    by_cases hpast : p.show_time < now
    · simp [hpast] at hok
    · rw [if_neg hpast] at hok
      unfold validate_ticket at hok
      by_cases hrow : 1 ≤ item.row ∧ item.row ≤ p.theatre_hall.rows
      · by_cases hseat : 1 ≤ item.seat ∧ item.seat ≤ p.theatre_hall.seats_in_row
        · rw [if_neg (not_not_intro hrow), if_neg (not_not_intro hseat)] at hok
          injection hok with hok
          subst hok
          refine ⟨rfl, rfl, rfl, ?_, hpast, hrow, hseat⟩
          · show p.id = item.performance
            have hfind : List.find? (fun q => q.id == item.performance)
                db.performances = some p := by
              simpa [lookupPerformance] using hres
            have hpred := List.find?_some hfind
            simpa using hpred
        · simp [hrow, hseat] at hok
      · simp [hrow] at hok

theorem ticketValidate_ok_of (db : DBState) (now : Int) (item : TicketItem)
    (p : Performance)
    (hres : lookupPerformance db item.performance = some p)
    (hfut : ¬ p.show_time < now)
    (hrow : 1 ≤ item.row ∧ item.row ≤ p.theatre_hall.rows)
    (hseat : 1 ≤ item.seat ∧ item.seat ≤ p.theatre_hall.seats_in_row) :
    ticketValidate db now item = .ok ⟨item.row, item.seat, p⟩ := by
  simp [ticketValidate, resolvePerformance, hres, if_neg hfut,
    validate_ticket, hrow, hseat]

theorem validateItems_ok_spec (db : DBState) (now : Int)
    (items : List TicketItem) (valid : List ValidTicket)
    (h : validateItems db now items = .ok valid) :
    items ≠ [] ∧
      valid = items.filterMap (fun it => (ticketValidate db now it).toOption) ∧
      ∀ it ∈ items, ∃ v, ticketValidate db now it = .ok v := by
  unfold validateItems at h
  by_cases hne : items.isEmpty
  · rw [if_pos hne] at h; simp at h
  · rw [if_neg hne] at h
    rcases hcv : collectValidate db now 0 items with ⟨errs, oks⟩
    rw [hcv] at h
    cases errs with
    | cons a rest => simp at h
    | nil =>
      simp only at h
      injection h with h
      subst h
      have h1 : (collectValidate db now 0 items).1 = [] := by rw [hcv]
      have h2 := collectValidate_snd_eq db now items 0
      rw [hcv] at h2
      refine ⟨by simpa using hne, by simpa using h2,
        (collectValidate_fst_eq_nil_iff db now items 0).mp h1⟩

theorem validateItems_ok_of (db : DBState) (now : Int)
    (items : List TicketItem) (hne : items ≠ [])
    (hall2 : ∀ it ∈ items, ∃ v, ticketValidate db now it = .ok v) :
    validateItems db now items =
      .ok (items.filterMap (fun it => (ticketValidate db now it).toOption)) := by
  have h1 : (collectValidate db now 0 items).1 = [] :=
    (collectValidate_fst_eq_nil_iff db now items 0).mpr hall2
  have h2 := collectValidate_snd_eq db now items 0
  unfold validateItems
  rw [if_neg (by simpa using hne)]
  rcases hcv : collectValidate db now 0 items with ⟨errs, oks⟩
  rw [hcv] at h1 h2
  simp only at h1 h2
  subst h1
  subst h2
  rfl

theorem reservationCreate_rejected_of_itemError (db : DBState) (user : Nat)
    (now : Int) (items : List TicketItem) (j : Nat) (item : TicketItem)
    (e : FieldError)
    (hget : items.get? j = some item)
    (herr : ticketValidate db now item = .error e) :
    reservationCreate db user now items =
        .rejected (.invalidItems (collectValidate db now 0 items).1) ∧
      (j, e) ∈ (collectValidate db now 0 items).1 := by
  have hne : items ≠ [] := by
    intro h; subst h; simp at hget
  have hmem := collectValidate_mem_of_error db now items 0 j item e hget herr
  rw [Nat.zero_add] at hmem
  refine ⟨?_, hmem⟩
  unfold reservationCreate validateItems
  rw [if_neg (by simpa using hne)]
  rcases hcv : collectValidate db now 0 items with ⟨errs, oks⟩
  cases errs with
  | nil =>
    rw [hcv] at hmem
    exact absurd hmem (List.not_mem_nil _)
  | cons a rest => rfl

theorem newTickets_eq (db : DBState) (now : Int) (items : List TicketItem)
    (rid : Nat)
    (hall2 : ∀ it ∈ items, ∃ v, ticketValidate db now it = .ok v) :
    ((items.filterMap (fun it => (ticketValidate db now it).toOption)).map
        (mkTicket rid)) =
      items.map (fun it => Ticket.mk it.row it.seat it.performance rid) := by
  induction items with
  | nil => simp
  | cons item rest ih =>
    obtain ⟨v, hv⟩ := hall2 item (List.mem_cons_self _ _)
    obtain ⟨hr, hs, _, hid, _, _, _⟩ := ticketValidate_ok_spec db now item v hv
    have hsome : (ticketValidate db now item).toOption = some v := by
      rw [hv]; rfl
    simp only [List.filterMap_cons, hsome, List.map_cons]
    rw [ih (fun it hit => hall2 it (List.mem_cons_of_mem _ hit))]
    simp [mkTicket, hr, hs, hid]

theorem reservationCreate_created_spec (db : DBState) (user : Nat) (now : Int)
    (items : List TicketItem) (db1 : DBState) (rid : Nat)
    (h : reservationCreate db user now items = .created db1 rid) :
    ∃ valid, validateItems db now items = .ok valid ∧
      rid = db.next_reservation_id ∧
      bulkInsertConflict db.tickets (valid.map (mkTicket rid)) = false ∧
      db1 = { db with
              reservations := db.reservations ++ [⟨rid, user, now⟩],
              tickets := db.tickets ++ valid.map (mkTicket rid),
              next_reservation_id := rid + 1 } := by
  unfold reservationCreate at h
  cases hval : validateItems db now items with
  | error e => rw [hval] at h; simp at h
  | ok valid =>
    rw [hval] at h
    simp only at h
    by_cases hconf : bulkInsertConflict db.tickets
        (valid.map (mkTicket db.next_reservation_id)) = true
    · simp [hconf] at h
    · have hconf2 : bulkInsertConflict db.tickets
          (valid.map (mkTicket db.next_reservation_id)) = false := by
        simpa using hconf
      rw [if_neg (by simp [hconf2])] at h
      injection h with h1 h2
      subst h2
      exact ⟨valid, rfl, rfl, hconf2, h1.symm⟩

/-! ### Concrete fixtures used by witnesses and counterexamples -/

/-- A 2-row, 2-seats-per-row hall (as in the repository's own tests). -/
def hallA : TheatreHall := ⟨2, 2⟩

/-- A performance in hall `hallA` with a future show time (requests below
use `now = 0`). -/
def perfA : Performance := ⟨1, hallA, 10⟩

/-- A performance whose show time is exactly the commit instant `now = 0`. -/
def perfBoundary : Performance := ⟨2, hallA, 0⟩

/-- A performance whose show time is strictly in the past. -/
def perfPast : Performance := ⟨3, hallA, -5⟩

/-- Store with one future performance and no tickets. -/
def dbFree : DBState := ⟨[perfA], [], [], 0⟩

/-- Store where seat (row 1, seat 1) of performance 1 is already taken by
user 7's reservation 0. -/
def dbConflict : DBState := ⟨[perfA], [⟨0, 7, 0⟩], [⟨1, 1, 1, 0⟩], 1⟩

/-- Store with only the boundary-time performance. -/
def dbBoundary : DBState := ⟨[perfBoundary], [], [], 0⟩

/-- Store with only the past performance. -/
def dbPast : DBState := ⟨[perfPast], [], [], 0⟩

/-- Store with no performances at all. -/
def dbNoPerf : DBState := ⟨[], [], [], 0⟩

/-- Store after user 1 has committed seat (1,1) of performance 1 under
reservation 0 (the literal result of the first create in the C2 witness). -/
def dbCommitted : DBState := ⟨[perfA], [⟨0, 1, 0⟩], [⟨1, 1, 1, 0⟩], 1⟩

/-- Store with reservations of two different users and no tickets. -/
def dbRes : DBState := ⟨[], [⟨0, 1, 5⟩, ⟨1, 2, 6⟩], [], 2⟩

/-! ### Claims -/

/-- Claim C1: when the atomic ticket insert violates the (row, seat,
performance) uniqueness constraint, the entire transaction is rolled back —
no Ticket and no Reservation is persisted, the state visible to readers is
exactly the pre-request state — and the caller receives the single
collective 400 error "Some seat is already taken for this performance.";
no partial reservation is ever visible. -/
theorem C1_conflict_rollback (db : DBState) (user : Nat) (now : Int)
    (items : List TicketItem) (valid : List ValidTicket)
    (hval : validateItems db now items = .ok valid)
    (hconf : bulkInsertConflict db.tickets
        (valid.map (mkTicket db.next_reservation_id)) = true) :
    reservationCreate db user now items = .rejected .seatTaken ∧
    stateAfter db (reservationCreate db user now items) = db ∧
    (reservationCreate db user now items).status = 400 ∧
    CreateError.seatTaken.detail =
      some "Some seat is already taken for this performance." := by
  have hcreate : reservationCreate db user now items = .rejected .seatTaken := by
    unfold reservationCreate
    rw [hval]
    simp [hconf]
  exact ⟨hcreate, by rw [hcreate]; rfl, by rw [hcreate]; rfl, rfl⟩

/-- Witness for C1 at a concrete store where seat (1,1) of performance 1 is
already taken. -/
theorem C1_conflict_rollback_witness :
    reservationCreate dbConflict 5 0 [⟨1, 1, 1⟩] = .rejected .seatTaken ∧
    stateAfter dbConflict (reservationCreate dbConflict 5 0 [⟨1, 1, 1⟩]) =
      dbConflict ∧
    (reservationCreate dbConflict 5 0 [⟨1, 1, 1⟩]).status = 400 ∧
    CreateError.seatTaken.detail =
      some "Some seat is already taken for this performance." :=
  C1_conflict_rollback dbConflict 5 0 [⟨1, 1, 1⟩] [⟨1, 1, perfA⟩]
    (by decide) (by decide)

/-- Claim C5 counterexample: a performance whose show time equals the commit
instant is "not strictly in the future", yet the code (strict `<` against
the current time) lets it pass validation and commits the reservation with
status 201 — not the 400 the claim requires. -/
theorem C5_counterexample :
    perfBoundary.show_time = 0 ∧ ¬ ((0 : Int) < 0) ∧
    reservationCreate dbBoundary 3 0 [⟨1, 1, 2⟩] =
      .created ⟨[perfBoundary], [⟨0, 3, 0⟩], [⟨1, 1, 2, 0⟩], 1⟩ 0 ∧
    (reservationCreate dbBoundary 3 0 [⟨1, 1, 2⟩]).status = 201 := by
  decide

/-- Claim C5 (amended): a reservation create call containing an item whose
performance's show time is strictly earlier than the validation instant is
rejected as a whole with a 400 error carrying "Performance is in the past."
keyed to the performance field of that item, regardless of seat validity,
and nothing is persisted. -/
theorem C5_amended_past_rejected (db : DBState) (user : Nat) (now : Int)
    (items : List TicketItem) (j : Nat) (item : TicketItem) (p : Performance)
    (hget : items.get? j = some item)
    (hres : lookupPerformance db item.performance = some p)
    (hpast : p.show_time < now) :
    reservationCreate db user now items =
        .rejected (.invalidItems (collectValidate db now 0 items).1) ∧
      (j, FieldError.mk "performance" "Performance is in the past.") ∈
        (collectValidate db now 0 items).1 ∧
      (reservationCreate db user now items).status = 400 ∧
      stateAfter db (reservationCreate db user now items) = db := by
  have herr : ticketValidate db now item =
      .error ⟨"performance", "Performance is in the past."⟩ := by
    simp [ticketValidate, resolvePerformance, hres, hpast]
  obtain ⟨hcr, hmem⟩ := reservationCreate_rejected_of_itemError
    db user now items j item _ hget herr
  exact ⟨hcr, hmem, by rw [hcr]; rfl, by rw [hcr]; rfl⟩

/-- Witness for the amended C5 at a concrete past performance, with an item
whose row and seat are also out of range (the performance error still wins). -/
theorem C5_amended_witness :
    reservationCreate dbPast 4 0 [⟨5, 9, 3⟩] =
        .rejected (.invalidItems (collectValidate dbPast 0 0 [⟨5, 9, 3⟩]).1) ∧
      (0, FieldError.mk "performance" "Performance is in the past.") ∈
        (collectValidate dbPast 0 0 [⟨5, 9, 3⟩]).1 ∧
      (reservationCreate dbPast 4 0 [⟨5, 9, 3⟩]).status = 400 ∧
      stateAfter dbPast (reservationCreate dbPast 4 0 [⟨5, 9, 3⟩]) = dbPast :=
  C5_amended_past_rejected dbPast 4 0 [⟨5, 9, 3⟩] 0 ⟨5, 9, 3⟩ perfPast
    (by decide) (by decide) (by decide)

/-- Claim C9 counterexample: submitting a reservation whose item references
a performance id that resolves to no Performance is rejected with a 400
field-keyed validation error ("Invalid pk"), not with a 404 NotFound as the
claim states. -/
theorem C9_counterexample :
    reservationCreate dbNoPerf 7 0 [⟨1, 1, 1⟩] =
      .rejected (.invalidItems
        [(0, ⟨"performance", "Invalid pk - object does not exist."⟩)]) ∧
    (reservationCreate dbNoPerf 7 0 [⟨1, 1, 1⟩]).status = 400 ∧
    (reservationCreate dbNoPerf 7 0 [⟨1, 1, 1⟩]).status ≠ 404 ∧
    stateAfter dbNoPerf (reservationCreate dbNoPerf 7 0 [⟨1, 1, 1⟩]) =
      dbNoPerf := by
  decide

/-- Claim C9 (amended): a reservation create call containing a performance
id that does not resolve to an existing Performance fails with a 400
validation error keyed to the performance field of that item, before any
write occurs (the state is unchanged). -/
theorem C9_amended_missing_performance (db : DBState) (user : Nat)
    (now : Int) (items : List TicketItem) (j : Nat) (item : TicketItem)
    (hget : items.get? j = some item)
    (hnone : lookupPerformance db item.performance = none) :
    reservationCreate db user now items =
        .rejected (.invalidItems (collectValidate db now 0 items).1) ∧
      (j, FieldError.mk "performance" "Invalid pk - object does not exist.") ∈
        (collectValidate db now 0 items).1 ∧
      (reservationCreate db user now items).status = 400 ∧
      stateAfter db (reservationCreate db user now items) = db := by
  have herr : ticketValidate db now item =
      .error ⟨"performance", "Invalid pk - object does not exist."⟩ := by
    simp [ticketValidate, resolvePerformance, hnone]
  obtain ⟨hcr, hmem⟩ := reservationCreate_rejected_of_itemError
    db user now items j item _ hget herr
  exact ⟨hcr, hmem, by rw [hcr]; rfl, by rw [hcr]; rfl⟩

/-- Witness for the amended C9 at a store with no performances. -/
theorem C9_amended_witness :
    reservationCreate dbNoPerf 8 0 [⟨2, 2, 9⟩] =
        .rejected (.invalidItems (collectValidate dbNoPerf 0 0 [⟨2, 2, 9⟩]).1) ∧
      (0, FieldError.mk "performance" "Invalid pk - object does not exist.") ∈
        (collectValidate dbNoPerf 0 0 [⟨2, 2, 9⟩]).1 ∧
      (reservationCreate dbNoPerf 8 0 [⟨2, 2, 9⟩]).status = 400 ∧
      stateAfter dbNoPerf (reservationCreate dbNoPerf 8 0 [⟨2, 2, 9⟩]) =
        dbNoPerf :=
  C9_amended_missing_performance dbNoPerf 8 0 [⟨2, 2, 9⟩] 0 ⟨2, 2, 9⟩
    (by decide) (by decide)

/-- Claim C2: the (row, seat, performance) triple is globally unique.
If the store satisfies the uniqueness invariant, it still satisfies it after
any reservation create call (successful or not); and when one of two
attempts targeting an identical triple commits first (the two serialization
orders of the storage engine's atomic commits), the later attempt is
definitively rejected with the 400 seat-conflict error — no order of
commits produces two persisted tickets for the same seat. -/
theorem C2_unique_seat_per_performance (db : DBState) (u1 u2 : Nat)
    (now : Int) (items : List TicketItem) (item : TicketItem)
    (db1 : DBState) (rid : Nat)
    (huniq : uniqueTriples db)
    (hsucc : reservationCreate db u1 now items = .created db1 rid)
    (hmem : item ∈ items) :
    uniqueTriples db1 ∧
    uniqueTriples (stateAfter db (reservationCreate db u1 now items)) ∧
    reservationCreate db1 u2 now [item] = .rejected .seatTaken ∧
    (reservationCreate db1 u2 now [item]).status = 400 := by
  obtain ⟨valid, hval, hridEq, hconf, hdb1⟩ :=
    reservationCreate_created_spec db u1 now items db1 rid hsucc
  obtain ⟨hne, hvalid_eq, hall2⟩ := validateItems_ok_spec db now items valid hval
  obtain ⟨v, hv⟩ := hall2 item hmem
  obtain ⟨hr, hs, hlook, hid, hfut, hrowb, hseatb⟩ :=
    ticketValidate_ok_spec db now item v hv
  have hvmem : v ∈ valid := by
    rw [hvalid_eq]
    exact List.mem_filterMap.mpr ⟨item, hmem, by rw [hv]; rfl⟩
  have hnodupconf := (bulkInsertConflict_eq_false_iff _ db.tickets).mp hconf
  have huniq1 : uniqueTriples db1 := by
    rw [hdb1]
    unfold uniqueTriples
    simp only [List.map_append]
    refine List.Nodup.append huniq hnodupconf.1 ?_
    intro a ha1 ha2
    obtain ⟨t, ht, hEq⟩ := List.mem_map.mp ha2
    exact hnodupconf.2 t ht (hEq ▸ ha1)
  have hlook1 : lookupPerformance db1 item.performance = some v.performance := by
    rw [hdb1]
    exact hlook
  have hv1 : ticketValidate db1 now item =
      .ok ⟨item.row, item.seat, v.performance⟩ :=
    ticketValidate_ok_of db1 now item v.performance hlook1 hfut hrowb hseatb
  have hval1 : validateItems db1 now [item] =
      .ok [⟨item.row, item.seat, v.performance⟩] := by
    unfold validateItems collectValidate
    simp [hv1, collectValidate]
  have hold : mkTicket rid v ∈ db1.tickets := by
    rw [hdb1]
    refine List.mem_append.mpr (Or.inr ?_)
    rw [hridEq]
    exact List.mem_map_of_mem _ hvmem
  have hconf1 : bulkInsertConflict db1.tickets
      [mkTicket db1.next_reservation_id ⟨item.row, item.seat, v.performance⟩] =
        true := by
    simp only [bulkInsertConflict, Bool.or_eq_true, hasTriple,
      List.any_eq_true, beq_iff_eq]
    left
    refine ⟨mkTicket rid v, hold, ?_⟩
    simp [mkTicket, Ticket.triple, hr, hs]
  have hcr1 : reservationCreate db1 u2 now [item] = .rejected .seatTaken := by
    unfold reservationCreate
    rw [hval1]
    simp [hconf1]
  refine ⟨huniq1, ?_, hcr1, by rw [hcr1]; rfl⟩
  rw [hsucc]
  exact huniq1

/-- Witness for C2: after user 1 books seat (1,1) of performance 1 on the
empty store, user 2's attempt at the same seat is rejected with the 400
conflict. -/
theorem C2_unique_seat_per_performance_witness :
    uniqueTriples dbCommitted ∧
    uniqueTriples (stateAfter dbFree (reservationCreate dbFree 1 0 [⟨1, 1, 1⟩])) ∧
    reservationCreate dbCommitted 2 0 [⟨1, 1, 1⟩] = .rejected .seatTaken ∧
    (reservationCreate dbCommitted 2 0 [⟨1, 1, 1⟩]).status = 400 :=
  C2_unique_seat_per_performance dbFree 1 2 0 [⟨1, 1, 1⟩] ⟨1, 1, 1⟩
    dbCommitted 0 (by decide) (by decide) (by decide)

/-- Claim C3: for every Performance and every state of the ticket store,
the `tickets_available` value exposed in the performance listing equals
`hall.rows * hall.seats_in_row` minus the live count of tickets referencing
that performance in the current store — the listing recomputes the value
from the ticket table on each call, there is no stored counter field. -/
theorem C3_tickets_available_live (db : DBState) (p : Performance)
    (hp : p ∈ db.performances) :
    annotatePerformance db p ∈ performanceQueryset db ∧
    (annotatePerformance db p).tickets_available =
      (p.theatre_hall.rows * p.theatre_hall.seats_in_row : Int) -
        (db.tickets.filter (fun t => t.performance == p.id)).length ∧
    (annotatePerformance db p).hall_capacity =
      p.theatre_hall.rows * p.theatre_hall.seats_in_row ∧
    ∀ e ∈ performanceQueryset db, ∃ q ∈ db.performances,
      e = annotatePerformance db q ∧
      e.tickets_available =
        (q.theatre_hall.rows * q.theatre_hall.seats_in_row : Int) -
          (db.tickets.filter (fun t => t.performance == q.id)).length := by
  refine ⟨?_, rfl, rfl, ?_⟩
  · unfold performanceQueryset
    rw [List.mem_mergeSort]
    exact List.mem_map_of_mem _ hp
  · intro e he
    unfold performanceQueryset at he
    rw [List.mem_mergeSort] at he
    obtain ⟨q, hq, hEq⟩ := List.mem_map.mp he
    refine ⟨q, hq, hEq.symm, ?_⟩
    rw [← hEq]
    rfl

/-- Witness for C3 at a store where one of the four seats of performance 1
is taken: availability in the listing is 4 - 1 = 3. -/
theorem C3_tickets_available_live_witness :
    annotatePerformance dbConflict perfA ∈ performanceQueryset dbConflict ∧
    (annotatePerformance dbConflict perfA).tickets_available =
      (perfA.theatre_hall.rows * perfA.theatre_hall.seats_in_row : Int) -
        (dbConflict.tickets.filter (fun t => t.performance == perfA.id)).length :=
  ⟨(C3_tickets_available_live dbConflict perfA (by decide)).1,
   (C3_tickets_available_live dbConflict perfA (by decide)).2.1⟩

/-- Claim C4 counterexample: an item that references an existing
performance with a future show time and in-bounds row/seat — all the
hypotheses the claim lists — is nevertheless rejected (400 conflict, no
Reservation persisted) when that seat is already taken, so the claim as
stated fails without a seat-availability hypothesis. -/
theorem C4_counterexample :
    lookupPerformance dbConflict 1 = some perfA ∧
    ¬ perfA.show_time < 0 ∧
    ((1 : Nat) ≤ 1 ∧ 1 ≤ perfA.theatre_hall.rows ∧
      1 ≤ perfA.theatre_hall.seats_in_row) ∧
    reservationCreate dbConflict 5 0 [⟨1, 1, 1⟩] = .rejected .seatTaken ∧
    (reservationCreate dbConflict 5 0 [⟨1, 1, 1⟩]).status = 400 ∧
    stateAfter dbConflict (reservationCreate dbConflict 5 0 [⟨1, 1, 1⟩]) =
      dbConflict := by
  decide

/-- Claim C4 (amended): for every non-empty list of N seat requests that
all reference existing performances with future show times and seats within
hall bounds, *and whose (row, seat, performance) triples neither repeat
within the batch nor collide with an already-persisted ticket*, a single
reservation create call persists exactly one Reservation owned by the
calling user with exactly N Tickets, one per request. -/
theorem C4_amended_batch_create (db : DBState) (user : Nat) (now : Int)
    (items : List TicketItem)
    (hne : items ≠ [])
    (hvalid : ∀ item ∈ items, ∃ p,
        lookupPerformance db item.performance = some p ∧
        ¬ p.show_time < now ∧
        (1 ≤ item.row ∧ item.row ≤ p.theatre_hall.rows) ∧
        (1 ≤ item.seat ∧ item.seat ≤ p.theatre_hall.seats_in_row))
    (hnodup : (items.map (fun it => (it.row, it.seat, it.performance))).Nodup)
    (hfree : ∀ item ∈ items,
        hasTriple db.tickets (item.row, item.seat, item.performance) = false) :
    reservationCreate db user now items =
      .created
        { db with
          reservations :=
            db.reservations ++ [⟨db.next_reservation_id, user, now⟩],
          tickets := db.tickets ++ items.map (fun it =>
            Ticket.mk it.row it.seat it.performance db.next_reservation_id),
          next_reservation_id := db.next_reservation_id + 1 }
        db.next_reservation_id := by
  have hall2 : ∀ it ∈ items, ∃ v, ticketValidate db now it = .ok v := by
    intro it hit
    obtain ⟨p, hres, hfut, hrow, hseat⟩ := hvalid it hit
    exact ⟨⟨it.row, it.seat, p⟩,
      ticketValidate_ok_of db now it p hres hfut hrow hseat⟩
  have hval := validateItems_ok_of db now items hne hall2
  have hnew := newTickets_eq db now items db.next_reservation_id hall2
  have htriples : ((items.map (fun it =>
      Ticket.mk it.row it.seat it.performance db.next_reservation_id)).map
        Ticket.triple) = items.map (fun it => (it.row, it.seat, it.performance)) := by
    rw [List.map_map]
    rfl
  have hconf : bulkInsertConflict db.tickets
      ((items.filterMap (fun it => (ticketValidate db now it).toOption)).map
        (mkTicket db.next_reservation_id)) = false := by
    rw [hnew, bulkInsertConflict_eq_false_iff]
    constructor
    · rw [htriples]
      exact hnodup
    · intro t ht
      obtain ⟨it, hit, hEq⟩ := List.mem_map.mp ht
      have hfr := hfree it hit
      rw [hasTriple_eq_false_iff] at hfr
      rw [← hEq]
      simpa [Ticket.triple] using hfr
  rw [hnew] at hconf
  unfold reservationCreate
  rw [hval]
  simp [hconf, hnew]

/-- Witness for the amended C4: booking two free seats of performance 1 on
the empty store creates one reservation (id 0, owned by user 6) with
exactly the two requested tickets. -/
theorem C4_amended_batch_create_witness :
    reservationCreate dbFree 6 0 [⟨1, 1, 1⟩, ⟨2, 2, 1⟩] =
      .created
        { dbFree with
          reservations :=
            dbFree.reservations ++ [⟨dbFree.next_reservation_id, 6, 0⟩],
          tickets := dbFree.tickets ++
            [(⟨1, 1, 1⟩ : TicketItem), ⟨2, 2, 1⟩].map (fun it =>
              Ticket.mk it.row it.seat it.performance dbFree.next_reservation_id),
          next_reservation_id := dbFree.next_reservation_id + 1 }
        dbFree.next_reservation_id :=
  C4_amended_batch_create dbFree 6 0 [⟨1, 1, 1⟩, ⟨2, 2, 1⟩] (by decide)
    (by
      intro item hmem
      simp only [List.mem_cons, List.not_mem_nil, or_false] at hmem
      rcases hmem with rfl | rfl
      · exact ⟨perfA, by decide, by decide, by decide, by decide⟩
      · exact ⟨perfA, by decide, by decide, by decide, by decide⟩)
    (by decide) (by decide)

/-- Claim C6: for a ticket item whose performance resolves and is not in
the past, validation raises the row-keyed range error exactly when row lies
outside [1, hall.rows]; the seat-keyed range error exactly when row is in
range and seat lies outside [1, hall.seats_in_row]; it succeeds exactly
when both are in range; and an out-of-range row (resp. seat) in a
reservation create call always yields a 400 whose error list carries the
range violation keyed to that field at the item's position. -/
theorem C6_row_seat_range (db : DBState) (user : Nat) (now : Int)
    (items : List TicketItem) (j : Nat) (item : TicketItem) (p : Performance)
    (hget : items.get? j = some item)
    (hres : lookupPerformance db item.performance = some p)
    (hfut : ¬ p.show_time < now) :
    (ticketValidate db now item = .error ⟨"row",
        "Row number must be between 1 and " ++ toString p.theatre_hall.rows⟩ ↔
      ¬ (1 ≤ item.row ∧ item.row ≤ p.theatre_hall.rows)) ∧
    (ticketValidate db now item = .error ⟨"seat",
        "Seat number must be between 1 and " ++
          toString p.theatre_hall.seats_in_row⟩ ↔
      ((1 ≤ item.row ∧ item.row ≤ p.theatre_hall.rows) ∧
        ¬ (1 ≤ item.seat ∧ item.seat ≤ p.theatre_hall.seats_in_row))) ∧
    (ticketValidate db now item = .ok ⟨item.row, item.seat, p⟩ ↔
      ((1 ≤ item.row ∧ item.row ≤ p.theatre_hall.rows) ∧
        (1 ≤ item.seat ∧ item.seat ≤ p.theatre_hall.seats_in_row))) ∧
    (¬ (1 ≤ item.row ∧ item.row ≤ p.theatre_hall.rows) →
      reservationCreate db user now items =
          .rejected (.invalidItems (collectValidate db now 0 items).1) ∧
        (j, FieldError.mk "row"
            ("Row number must be between 1 and " ++
              toString p.theatre_hall.rows)) ∈
          (collectValidate db now 0 items).1 ∧
        (reservationCreate db user now items).status = 400) ∧
    ((1 ≤ item.row ∧ item.row ≤ p.theatre_hall.rows) →
      ¬ (1 ≤ item.seat ∧ item.seat ≤ p.theatre_hall.seats_in_row) →
      reservationCreate db user now items =
          .rejected (.invalidItems (collectValidate db now 0 items).1) ∧
        (j, FieldError.mk "seat"
            ("Seat number must be between 1 and " ++
              toString p.theatre_hall.seats_in_row)) ∈
          (collectValidate db now 0 items).1 ∧
        (reservationCreate db user now items).status = 400) := by
  have hrowErr : ∀ hrow : ¬ (1 ≤ item.row ∧ item.row ≤ p.theatre_hall.rows),
      ticketValidate db now item = .error ⟨"row",
        "Row number must be between 1 and " ++ toString p.theatre_hall.rows⟩ := by
    intro hrow
    simp [ticketValidate, resolvePerformance, hres, if_neg hfut,
      validate_ticket, hrow]
  have hseatErr : ∀ (_ : 1 ≤ item.row ∧ item.row ≤ p.theatre_hall.rows)
      (_ : ¬ (1 ≤ item.seat ∧ item.seat ≤ p.theatre_hall.seats_in_row)),
      ticketValidate db now item = .error ⟨"seat",
        "Seat number must be between 1 and " ++
          toString p.theatre_hall.seats_in_row⟩ := by
    intro hrow hseat
    simp [ticketValidate, resolvePerformance, hres, if_neg hfut,
      validate_ticket, hrow, hseat]
  refine ⟨?_, ?_, ?_, ?_, ?_⟩
  · constructor
    · intro hErr
      by_contra hrow
      by_cases hseat : 1 ≤ item.seat ∧ item.seat ≤ p.theatre_hall.seats_in_row
      · rw [(ticketValidate_ok_iff db now item p hres hfut
          ⟨item.row, item.seat, p⟩).mpr ⟨rfl, hrow, hseat⟩] at hErr
        simp at hErr
      · rw [hseatErr hrow hseat] at hErr
        simp at hErr
    · exact hrowErr
  · constructor
    · intro hErr
      by_cases hrow : 1 ≤ item.row ∧ item.row ≤ p.theatre_hall.rows
      · by_cases hseat : 1 ≤ item.seat ∧ item.seat ≤ p.theatre_hall.seats_in_row
        · rw [(ticketValidate_ok_iff db now item p hres hfut
            ⟨item.row, item.seat, p⟩).mpr ⟨rfl, hrow, hseat⟩] at hErr
          simp at hErr
        · exact ⟨hrow, hseat⟩
      · rw [hrowErr hrow] at hErr
        simp at hErr
    · rintro ⟨hrow, hseat⟩
      exact hseatErr hrow hseat
  · constructor
    · intro hok
      exact ((ticketValidate_ok_iff db now item p hres hfut
        ⟨item.row, item.seat, p⟩).mp hok).2
    · rintro ⟨hrow, hseat⟩
      exact (ticketValidate_ok_iff db now item p hres hfut
        ⟨item.row, item.seat, p⟩).mpr ⟨rfl, hrow, hseat⟩
  · intro hrow
    obtain ⟨hcr, hmem⟩ := reservationCreate_rejected_of_itemError
      db user now items j item _ hget (hrowErr hrow)
    exact ⟨hcr, hmem, by rw [hcr]; rfl⟩
  · intro hrow hseat
    obtain ⟨hcr, hmem⟩ := reservationCreate_rejected_of_itemError
      db user now items j item _ hget (hseatErr hrow hseat)
    exact ⟨hcr, hmem, by rw [hcr]; rfl⟩

/-- Witness for C6: row = 0 on the 2x2 hall yields the 400 with the
row-keyed range error; and row = hall.rows + 1 = 3 does as well. -/
theorem C6_row_seat_range_witness :
    (reservationCreate dbFree 5 0 [⟨0, 1, 1⟩] =
        .rejected (.invalidItems (collectValidate dbFree 0 0 [⟨0, 1, 1⟩]).1) ∧
      (0, FieldError.mk "row"
          ("Row number must be between 1 and " ++
            toString perfA.theatre_hall.rows)) ∈
        (collectValidate dbFree 0 0 [⟨0, 1, 1⟩]).1 ∧
      (reservationCreate dbFree 5 0 [⟨0, 1, 1⟩]).status = 400) ∧
    (reservationCreate dbFree 5 0 [⟨1, 3, 1⟩] =
        .rejected (.invalidItems (collectValidate dbFree 0 0 [⟨1, 3, 1⟩]).1) ∧
      (0, FieldError.mk "seat"
          ("Seat number must be between 1 and " ++
            toString perfA.theatre_hall.seats_in_row)) ∈
        (collectValidate dbFree 0 0 [⟨1, 3, 1⟩]).1 ∧
      (reservationCreate dbFree 5 0 [⟨1, 3, 1⟩]).status = 400) :=
  ⟨(C6_row_seat_range dbFree 5 0 [⟨0, 1, 1⟩] 0 ⟨0, 1, 1⟩ perfA
      (by decide) (by decide) (by decide)).2.2.2.1 (by decide),
   (C6_row_seat_range dbFree 5 0 [⟨1, 3, 1⟩] 0 ⟨1, 3, 1⟩ perfA
      (by decide) (by decide) (by decide)).2.2.2.2 (by decide) (by decide)⟩

/-- Claim C7: on catalog and scheduling resources, read requests (safe
methods) are permitted for any caller, while a write request — or a play
image upload — from a caller without administrative privilege is answered
with 403 Forbidden, never with 404 NotFound.
The attachment of `IsAdminOrReadOnly` to these viewsets lives in the
project settings, which are not part of the sources here; it is modelled
from the spec in `catalogStatus`. -/
theorem C7_admin_or_read_only (req : Request)
    (hwrite : ¬ req.method ∈ SAFE_METHODS)
    (hnonadmin : ∀ u, req.user = some u → u.is_staff = false) :
    catalogStatus req = 403 ∧ catalogStatus req ≠ 404 ∧
    uploadImageStatus req = 403 ∧ uploadImageStatus req ≠ 404 ∧
    (∀ r : Request, r.method ∈ SAFE_METHODS → catalogStatus r = 200) := by
  have hperm : isAdminOrReadOnly req = false := by
    unfold isAdminOrReadOnly
    rw [if_neg hwrite]
    cases hu : req.user with
    | none => rfl
    | some u => exact hnonadmin u hu
  have hperm2 : isAdminUser req = false := by
    unfold isAdminUser
    cases hu : req.user with
    | none => rfl
    | some u => exact hnonadmin u hu
  refine ⟨by simp [catalogStatus, hperm], by simp [catalogStatus, hperm],
    by simp [uploadImageStatus, hperm2], by simp [uploadImageStatus, hperm2],
    ?_⟩
  intro r hr
  simp [catalogStatus, isAdminOrReadOnly, hr]

/-- Witness for C7: an anonymous POST is forbidden (403, not 404) on both
the catalog resources and the image upload, while an anonymous GET reads
the catalog. -/
theorem C7_admin_or_read_only_witness :
    catalogStatus ⟨"POST", none⟩ = 403 ∧
    catalogStatus ⟨"POST", none⟩ ≠ 404 ∧
    uploadImageStatus ⟨"POST", none⟩ = 403 ∧
    uploadImageStatus ⟨"POST", none⟩ ≠ 404 ∧
    catalogStatus ⟨"GET", none⟩ = 200 :=
  let h := C7_admin_or_read_only ⟨"POST", none⟩ (by decide)
    (fun u hu => nomatch hu)
  ⟨h.1, h.2.1, h.2.2.1, h.2.2.2.1, h.2.2.2.2 ⟨"GET", none⟩ (by decide)⟩

/-- Claim C8: the reservation listing is scoped server-side by the
authenticated identity: every returned reservation belongs to the caller,
the result does not depend on client-supplied query parameters (the view
declares no filterset), and another user's reservation is never returned. -/
theorem C8_owner_scoped_listing (db : DBState) (uid : Nat)
    (params : List (String × String)) (r : Reservation)
    (hmem : r ∈ reservationQueryset db uid params) :
    r.user = uid ∧
    (∀ params2, reservationQueryset db uid params2 =
      reservationQueryset db uid params) ∧
    (∀ other : Reservation, other.user ≠ uid →
      other ∉ reservationQueryset db uid params) := by
  have hmem2 : r ∈ db.reservations.filter (fun x => x.user == uid) := by
    unfold reservationQueryset at hmem
    rwa [List.mem_mergeSort] at hmem
  have h1 := (List.mem_filter.mp hmem2).2
  refine ⟨by simpa using h1, fun params2 => rfl, ?_⟩
  intro other hother hmem3
  unfold reservationQueryset at hmem3
  rw [List.mem_mergeSort] at hmem3
  have h2 := (List.mem_filter.mp hmem3).2
  simp only [beq_iff_eq] at h2
  exact hother h2

/-- Witness for C8 on a store holding reservations of users 1 and 2:
user 1's listing contains their reservation, ignores a query parameter,
and never contains user 2's reservation. -/
theorem C8_owner_scoped_listing_witness :
    (⟨0, 1, 5⟩ : Reservation).user = 1 ∧
    reservationQueryset dbRes 1 [("user", "2")] =
      reservationQueryset dbRes 1 [] ∧
    (⟨1, 2, 6⟩ : Reservation) ∉ reservationQueryset dbRes 1 [] :=
  let h := C8_owner_scoped_listing dbRes 1 [] ⟨0, 1, 5⟩ (by
    unfold reservationQueryset
    rw [List.mem_mergeSort]
    decide)
  ⟨h.1, h.2.1 [("user", "2")], h.2.2 ⟨1, 2, 6⟩ (by decide)⟩

/-- Claim C10 (implicit): for a Performance whose tickets all satisfy the
hall's row/seat bounds, under the (row, seat, performance) uniqueness
constraint the number of its tickets can never exceed
hall.rows * hall.seats_in_row, so the annotated tickets_available is never
negative. -/
theorem C10_availability_nonneg (db : DBState) (p : Performance)
    (huniq : uniqueTriples db)
    (hbounds : ∀ t ∈ ticketsFor db p.id,
        (1 ≤ t.row ∧ t.row ≤ p.theatre_hall.rows) ∧
        (1 ≤ t.seat ∧ t.seat ≤ p.theatre_hall.seats_in_row)) :
    takenCount db p.id ≤ p.theatre_hall.hall_capacity ∧
    0 ≤ tickets_available db p := by
  have hsub : (ticketsFor db p.id).Sublist db.tickets := List.filter_sublist _
  have htri : ((ticketsFor db p.id).map Ticket.triple).Nodup :=
    (hsub.map Ticket.triple).nodup huniq
  have hperf : ∀ t ∈ ticketsFor db p.id, t.performance = p.id := by
    intro t ht
    have hfilter := (List.mem_filter.mp ht).2
    simpa using hfilter
  have hmapeq : (ticketsFor db p.id).map Ticket.triple =
      ((ticketsFor db p.id).map (fun t => (t.row, t.seat))).map
        (fun pr => (pr.1, pr.2, p.id)) := by
    rw [List.map_map]
    exact List.map_congr_left (fun t ht => by
      simp [Ticket.triple, hperf t ht])
  have hpairs : ((ticketsFor db p.id).map (fun t => (t.row, t.seat))).Nodup := by
    rw [hmapeq] at htri
    exact htri.of_map _
  have hsubset : ((ticketsFor db p.id).map (fun t => (t.row, t.seat))).toFinset ⊆
      Finset.Icc 1 p.theatre_hall.rows ×ˢ
        Finset.Icc 1 p.theatre_hall.seats_in_row := by
    intro pr hpr
    rw [List.mem_toFinset] at hpr
    obtain ⟨t, ht, hEq⟩ := List.mem_map.mp hpr
    obtain ⟨⟨h1, h2⟩, h3, h4⟩ := hbounds t ht
    rw [← hEq]
    simp only [Finset.mem_product, Finset.mem_Icc]
    exact ⟨⟨h1, h2⟩, h3, h4⟩
  have hcard := Finset.card_le_card hsubset
  rw [List.toFinset_card_of_nodup hpairs, Finset.card_product] at hcard
  simp only [Nat.card_Icc, Nat.add_sub_cancel] at hcard
  have hlen : takenCount db p.id ≤
      p.theatre_hall.rows * p.theatre_hall.seats_in_row := by
    simpa [takenCount, List.length_map] using hcard
  refine ⟨hlen, ?_⟩
  unfold tickets_available
  have hcast : (takenCount db p.id : Int) ≤
      (p.theatre_hall.rows : Int) * (p.theatre_hall.seats_in_row : Int) := by
    exact_mod_cast hlen
  omega

/-- Witness for C10 at the store where one of the four seats of
performance 1 is taken: 1 ≤ 4 and availability 3 ≥ 0. -/
theorem C10_availability_nonneg_witness :
    takenCount dbConflict perfA.id ≤ perfA.theatre_hall.hall_capacity ∧
    0 ≤ tickets_available dbConflict perfA :=
  C10_availability_nonneg dbConflict perfA (by decide)
    (by
      intro t ht
      simp [ticketsFor, dbConflict] at ht
      rw [ht.1]
      decide)

end Theatre
